import Mathlib

/-!
Shallow embedding of `piper_sdk/client.py` (PiperClient): JSON values as the
dynamic data exchanged with the broker, Python truthiness and `int()` coercion,
the token cache keyed by (audience, instance id), and the client operations
`_fetch_agent_token`, `_get_valid_agent_token`, `discover_local_instance_id`,
`_get_instance_id_or_raise`, `get_credential_id_for_variable` and
`get_scoped_credentials_by_id`.  Network interaction is modelled by passing the
HTTP response an endpoint would deliver as an explicit argument, together with
counters of how many requests each operation issues.
-/

namespace PiperSDK

/-- JSON values, the dynamic data the client exchanges with the broker.
Numbers are modelled as integers (the fields the client reads are integral). -/
inductive Json where
  | null
  | bool (b : Bool)
  | num (n : Int)
  | str (s : String)
  | arr (elems : List Json)
  | obj (fields : List (String × Json))
deriving Repr, Inhabited

/-- Python truthiness of a JSON value (`bool(x)`). -/
def Json.truthy : Json → Bool
  | .null => false
  | .bool b => b
  | .num n => n != 0
  | .str s => s != ""
  | .arr xs => !xs.isEmpty
  | .obj fs => !fs.isEmpty

/-- Dictionary lookup, `d.get(k)` on a JSON object. -/
def Json.get : Json → String → Option Json
  | .obj fs, k => fs.lookup k
  | _, _ => none

/-- Whether a JSON value equals (`==` in Python) a given string. -/
def Json.isStrEq : Json → String → Bool
  | .str t, s => t == s
  | _, _ => false

/-- A single-quote character, as it appears in Python-formatted messages. -/
def sq : String := String.singleton (Char.ofNat 39)

mutual
/-- Python `repr()` of a JSON value (used by `str()` on non-string data). -/
def pyRepr : Json → String
  | .null => "None"
  | .bool b => if b then "True" else "False"
  | .num n => toString n
  | .str s => sq ++ s ++ sq
  | .arr xs => "[" ++ pyReprList xs ++ "]"
  | .obj fs => "\x7b" ++ pyReprFields fs ++ "\x7d"

/-- Comma-separated reprs of list elements. -/
def pyReprList : List Json → String
  | [] => ""
  | [x] => pyRepr x
  | x :: xs => pyRepr x ++ ", " ++ pyReprList xs

/-- Comma-separated reprs of dict entries. -/
def pyReprFields : List (String × Json) → String
  | [] => ""
  | [(k, v)] => sq ++ k ++ sq ++ ": " ++ pyRepr v
  | (k, v) :: fs => sq ++ k ++ sq ++ ": " ++ pyRepr v ++ ", " ++ pyReprFields fs
end

/-- Python `str()` of a JSON value. -/
def pyStr : Json → String
  | .str s => s
  | j => pyRepr j

/-- Python `s.strip()`: the string with leading and trailing whitespace
removed. -/
def pyStrip (s : String) : String :=
  ((s.toList.dropWhile Char.isWhitespace).reverse.dropWhile Char.isWhitespace).reverse.asString

/-- The natural number denoted by a list of decimal digits. -/
def digitsToNat (cs : List Char) : Nat := cs.foldl (fun a c => a * 10 + (c.toNat - 48)) 0

/-- Whether the first character list starts with the second. -/
def listStartsWith : List Char → List Char → Bool
  | _, [] => true
  | [], _ :: _ => false
  | c :: cs, d :: ds => (c = d) && listStartsWith cs ds

/-- Whether the first character list contains the second as a contiguous
subsequence. -/
def listContainsSeq : List Char → List Char → Bool
  | [], needle => needle.isEmpty
  | c :: t, needle => listStartsWith (c :: t) needle || listContainsSeq t needle

/-- Whether a string contains another as a substring (Python `in` on strings). -/
def strContains (hay needle : String) : Bool := listContainsSeq hay.toList needle.toList

/-- Python `int(s)` on a string: optional surrounding whitespace, an optional
sign, then decimal digits; anything else raises `ValueError` (`none`). -/
def pyParseIntStr (s : String) : Option Int :=
  match (pyStrip s).toList with
  | [] => none
  | c :: cs =>
      if c = Char.ofNat 45 then
        if cs ≠ [] ∧ cs.all Char.isDigit then some (-(digitsToNat cs : Int)) else none
      else if c = Char.ofNat 43 then
        if cs ≠ [] ∧ cs.all Char.isDigit then some (digitsToNat cs) else none
      else
        if (c :: cs).all Char.isDigit then some (digitsToNat (c :: cs)) else none

/-- Python `int(x)` on a JSON value: `none` models a raised
`ValueError`/`TypeError`. -/
def pyInt : Json → Option Int
  | .num n => some n
  | .bool b => some (if b then 1 else 0)
  | .str s => pyParseIntStr s
  | _ => none

/-- Truthiness of an optional string (`None` and `""` are falsy). -/
def strOptTruthy : Option String → Bool
  | none => false
  | some s => s != ""

/-- Truthiness of an optional JSON value. -/
def jsonOptTruthy : Option Json → Bool
  | none => false
  | some j => j.truthy

/-- Errors raised by the client: `ValueError`, `PiperLinkNeededError`,
`PiperAuthError` (message, status code, error code, details) and the generic
`PiperError` wrapper around unexpected exceptions. -/
inductive PiperErr where
  | valueError (msg : String)
  | linkNeeded
  | authError (msg : String) (status : Option Nat) (code : Option Json) (details : Option Json)
  | unexpected (msg : String)
deriving Repr

/-- An HTTP response as the client observes it: status code, the parsed JSON
body when the body parses as JSON (`none` models a JSON decode failure), and
the raw body text. -/
structure HttpResponse where
  status : Nat
  jsonBody : Option Json
  text : String
deriving Repr

/-- The (error code, error description, error details) triple the client
extracts from a 4xx/5xx response body. -/
structure ErrInfo where
  code : Json
  description : String
  details : Json
deriving Repr

/-- Error parsing shared by `_fetch_agent_token`, `get_credential_id_for_variable`
and `get_scoped_credentials_by_id`: on a JSON-object body, `error` (defaulting
to `http_<status>`) and `error_description` / `message` / `str(body)`; on a
non-JSON body, the raw text.  A JSON body that is not an object makes the
`.get` calls raise, which the surrounding code wraps as an unexpected error:
that case is `none` here. -/
def parseErrInfo (status : Nat) (resp : HttpResponse) : Option ErrInfo :=
  match resp.jsonBody with
  | some (.obj fs) =>
      let details := Json.obj fs
      let code := ((Json.obj fs).get "error").getD (.str ("http_" ++ toString status))
      let description :=
        pyStr ((((Json.obj fs).get "error_description").orElse
          (fun _ => ((Json.obj fs).get "message"))).getD details)
      some { code := code, description := description, details := details }
  | some _ => none
  | none =>
      some { code := .str ("http_" ++ toString status),
             description := if resp.text != "" then resp.text else "API Error " ++ toString status,
             details := .str resp.text }

/-- Token-cache key: (audience URL, optional Piper Link instance id). -/
abbrev CacheKey := String × Option String

/-- Pointwise update of a total map at one key. -/
def upd {β : Type} (f : CacheKey → β) (k : CacheKey) (v : β) : CacheKey → β :=
  fun x => if x = k then v else f x

/-- The client's mutable state: `_access_tokens`, `_token_expiries`
(`.get(key, 0)` semantics, hence a total map defaulting to 0) and
`_discovered_instance_id`. -/
structure ClientState where
  accessTokens : CacheKey → Option Json
  tokenExpiries : CacheKey → Int
  discoveredInstanceId : Option String

/-- The client state of a freshly constructed client (before any discovery). -/
def initialState : ClientState :=
  { accessTokens := fun _ => none, tokenExpiries := fun _ => 0, discoveredInstanceId := none }

/-- The default token-expiry safety buffer, in seconds. -/
def DEFAULT_TOKEN_EXPIRY_BUFFER_SECONDS : Int := 60

/-- Embedding of `PiperClient._fetch_agent_token`, as a function of the response
the token endpoint delivers and of `request_start_time`.  On 4xx/5xx the parsed
error is raised as `PiperAuthError`; on success the access token must be truthy
and the cached expiry is `request_start_time + int(expires_in)`, where an
unparseable `expires_in` counts as 0. -/
def fetchAgentToken (resp : HttpResponse) (requestStart : Int) : Except PiperErr (Json × Int) :=
  if 400 ≤ resp.status ∧ resp.status < 600 then
    match parseErrInfo resp.status resp with
    | some info =>
        .error (.authError ("API error obtaining agent token: " ++ info.description)
          (some resp.status) (some info.code) (some info.details))
    | none => .error (.unexpected "An unexpected error occurred fetching agent token.")
  else
    match resp.jsonBody with
    | some (.obj fs) =>
        let accessToken := ((Json.obj fs).get "access_token").getD .null
        let expiresRaw := ((Json.obj fs).get "expires_in").getD (.num 0)
        let expiresIn := (pyInt expiresRaw).getD 0
        if accessToken.truthy then
          .ok (accessToken, requestStart + expiresIn)
        else
          .error (.authError "Failed to obtain access token (token missing in response)."
            (some resp.status) none (some (.obj fs)))
    | some _ => .error (.unexpected "An unexpected error occurred fetching agent token.")
    | none => .error (.authError "Request failed for agent token." (some resp.status) none none)

/-- Result of `_get_valid_agent_token`: the returned token or raised error, the
client state afterwards, and how many token-endpoint requests were issued. -/
structure TokenOut where
  result : Except PiperErr Json
  state : ClientState
  fetchCalls : Nat

/-- Embedding of `PiperClient._get_valid_agent_token`: returns the cached token
for (audience, instance id) when no refresh is forced, the cached token is
truthy and its expiry exceeds now + buffer; otherwise fetches once, caching the
result on success. -/
def getValidAgentToken (st : ClientState) (audience : String) (instanceId : Option String)
    (forceRefresh : Bool) (now requestStart : Int) (tokenResp : HttpResponse) : TokenOut :=
  let key : CacheKey := (audience, instanceId)
  let cachedToken := st.accessTokens key
  let cachedExpiry := st.tokenExpiries key
  if forceRefresh = false ∧ jsonOptTruthy cachedToken = true ∧
      cachedExpiry > now + DEFAULT_TOKEN_EXPIRY_BUFFER_SECONDS then
    { result := .ok (cachedToken.getD .null), state := st, fetchCalls := 0 }
  else
    match fetchAgentToken tokenResp requestStart with
    | .ok (tok, expiry) =>
        { result := .ok tok,
          state := { st with
            accessTokens := upd st.accessTokens key (some tok),
            tokenExpiries := upd st.tokenExpiries key expiry },
          fetchCalls := 1 }
    | .error e => { result := .error e, state := st, fetchCalls := 1 }

/-- Outcome of the GET against the local Piper Link discovery endpoint:
transport failures, a `raise_for_status`/JSON-decode failure
(`requests.exceptions.RequestException`), a delivered JSON body, or any other
unexpected exception. -/
inductive DiscoveryOutcome where
  | connectionError
  | timeout
  | requestError (status : Option Nat)
  | response (body : Json)
  | otherError
deriving Repr

/-- Result of `discover_local_instance_id`: the returned instance id (or
`None`), the client state afterwards, and how many discovery requests were
issued. -/
structure DiscoverOut where
  result : Option String
  state : ClientState
  netCalls : Nat

/-- Embedding of `PiperClient.discover_local_instance_id`: returns the cached
id when truthy and no refresh is forced; otherwise queries the local service,
caching the id when the body is an object whose `instanceId` is a truthy
string, and caching `None` (and returning `None`) on every failure. -/
def discoverLocalInstanceId (st : ClientState) (forceRefresh : Bool)
    (outcome : DiscoveryOutcome) : DiscoverOut :=
  if strOptTruthy st.discoveredInstanceId = true ∧ forceRefresh = false then
    { result := st.discoveredInstanceId, state := st, netCalls := 0 }
  else
    match outcome with
    | .response (.obj fs) =>
        match (Json.obj fs).get "instanceId" with
        | some (.str s) =>
            if s != "" then
              { result := some s, state := { st with discoveredInstanceId := some s }, netCalls := 1 }
            else
              { result := none, state := { st with discoveredInstanceId := none }, netCalls := 1 }
        | _ => { result := none, state := { st with discoveredInstanceId := none }, netCalls := 1 }
    | _ => { result := none, state := { st with discoveredInstanceId := none }, netCalls := 1 }

/-- Result of `_get_instance_id_or_raise`: the instance id or the raised
`PiperLinkNeededError`, the state afterwards, and discovery requests issued. -/
structure CtxOut where
  result : Except PiperErr String
  state : ClientState
  discoveryCalls : Nat

/-- Embedding of `PiperClient._get_instance_id_or_raise`:
`instance_id_param or self._discovered_instance_id or self.discover_local_instance_id()`,
raising `PiperLinkNeededError` when the result is falsy. -/
def getInstanceIdOrRaise (st : ClientState) (instanceIdParam : Option String)
    (discovery : DiscoveryOutcome) : CtxOut :=
  if strOptTruthy instanceIdParam = true then
    { result := .ok (instanceIdParam.getD ""), state := st, discoveryCalls := 0 }
  else if strOptTruthy st.discoveredInstanceId = true then
    { result := .ok (st.discoveredInstanceId.getD ""), state := st, discoveryCalls := 0 }
  else
    let d := discoverLocalInstanceId st false discovery
    if strOptTruthy d.result = true then
      { result := .ok (d.result.getD ""), state := d.state, discoveryCalls := d.netCalls }
    else
      { result := .error .linkNeeded, state := d.state, discoveryCalls := d.netCalls }

/-- Result of a broker-endpoint operation: returned value or raised error, the
client state afterwards, and the number of discovery, token-endpoint and
broker-endpoint requests issued. -/
structure ApiOut (α : Type) where
  result : Except PiperErr α
  state : ClientState
  discoveryCalls : Nat
  tokenFetchCalls : Nat
  apiCalls : Nat

/-- Client configuration relevant to the broker calls: the agent client id and
the endpoint URLs (each broker endpoint URL doubles as its token audience). -/
structure PiperConfig where
  clientId : String
  resolveMappingUrl : String
  getScopedUrl : String

/-- Handling of the mapping-resolution response in
`get_credential_id_for_variable`, after a bearer token was obtained: on
4xx/5xx the token-cache entry for (audience, instance id) is expired on
401/`invalid_token`, a 404/`mapping_not_found` raises the specific
`PiperAuthError`, and other statuses raise a generic one; on success the body
must be an object with a truthy string `credentialId`. -/
def resolveApiStep (st : ClientState) (audience trimmedVar targetInstanceId : String)
    (apiResp : HttpResponse) : Except PiperErr String × ClientState :=
  if 400 ≤ apiResp.status ∧ apiResp.status < 600 then
    match parseErrInfo apiResp.status apiResp with
    | none => (.error (.unexpected "An unexpected error occurred resolving variable mapping."), st)
    | some info =>
        let st2 :=
          if apiResp.status = 401 ∨ info.code.isStrEq "invalid_token" = true then
            { st with tokenExpiries := upd st.tokenExpiries (audience, some targetInstanceId) 0 }
          else st
        if apiResp.status = 404 ∨ info.code.isStrEq "mapping_not_found" = true then
          (.error (.authError ("No active grant mapping found for variable " ++ sq ++ trimmedVar
              ++ sq ++ " for context of instance " ++ sq ++ targetInstanceId ++ sq ++ ".")
            (some 404) (some (.str "mapping_not_found")) (some info.details)), st2)
        else
          (.error (.authError ("Failed to resolve variable mapping: " ++ info.description)
            (some apiResp.status) (some info.code) (some info.details)), st2)
  else
    match apiResp.jsonBody with
    | some (.obj fs) =>
        match (Json.obj fs).get "credentialId" with
        | some (.str cid) =>
            if cid != "" then (.ok cid, st)
            else
              (.error (.authError
                "Received unexpected response format from variable mapping endpoint (missing credentialId)."
                (some apiResp.status) none (some (.obj fs))), st)
        | _ =>
            (.error (.authError
              "Received unexpected response format from variable mapping endpoint (missing credentialId)."
              (some apiResp.status) none (some (.obj fs))), st)
    | some _ => (.error (.unexpected "An unexpected error occurred resolving variable mapping."), st)
    | none => (.error (.authError "Network error resolving variable mapping." none none none), st)

/-- Embedding of `PiperClient.get_credential_id_for_variable`: resolves the
instance id (possibly via local discovery), validates the variable name,
obtains a bearer token for the resolve-mapping audience, then performs the
mapping call, as a function of the responses the endpoints would deliver. -/
def getCredentialIdForVariable (cfg : PiperConfig) (st : ClientState)
    (variableName : String) (instanceIdParam : Option String)
    (discovery : DiscoveryOutcome) (now requestStart : Int)
    (tokenResp apiResp : HttpResponse) : ApiOut String :=
  let ctx := getInstanceIdOrRaise st instanceIdParam discovery
  match ctx.result with
  | .error e =>
      { result := .error e, state := ctx.state, discoveryCalls := ctx.discoveryCalls,
        tokenFetchCalls := 0, apiCalls := 0 }
  | .ok targetInstanceId =>
      if variableName = "" then
        { result := .error (.valueError "variable_name must be non-empty string."),
          state := ctx.state, discoveryCalls := ctx.discoveryCalls,
          tokenFetchCalls := 0, apiCalls := 0 }
      else
        let trimmedVar := pyStrip variableName
        if trimmedVar = "" then
          { result := .error (.valueError "variable_name cannot be empty."),
            state := ctx.state, discoveryCalls := ctx.discoveryCalls,
            tokenFetchCalls := 0, apiCalls := 0 }
        else
          let audience := cfg.resolveMappingUrl
          let tk := getValidAgentToken ctx.state audience (some targetInstanceId) false
            now requestStart tokenResp
          match tk.result with
          | .error e =>
              { result := .error e, state := tk.state, discoveryCalls := ctx.discoveryCalls,
                tokenFetchCalls := tk.fetchCalls, apiCalls := 0 }
          | .ok _ =>
              let step := resolveApiStep tk.state audience trimmedVar targetInstanceId apiResp
              { result := step.1, state := step.2, discoveryCalls := ctx.discoveryCalls,
                tokenFetchCalls := tk.fetchCalls, apiCalls := 1 }

/-- Handling of the scoped-credentials response in
`get_scoped_credentials_by_id`, after a bearer token was obtained: 401 /
`invalid_token` expires the token-cache entry and raises, 403 /
`permission_denied` raises, other 4xx/5xx raise generically; on success the
body must contain both `access_token` and `granted_credential_ids`, and the
full body is returned unchanged (a granted set differing from the requested
set is only logged). -/
def scopedApiStep (st : ClientState) (audience : String) (_cleanedIds : List String)
    (targetInstanceId : String) (apiResp : HttpResponse) : Except PiperErr Json × ClientState :=
  if 400 ≤ apiResp.status ∧ apiResp.status < 600 then
    match parseErrInfo apiResp.status apiResp with
    | none => (.error (.unexpected "An unexpected error occurred getting scoped credentials."), st)
    | some info =>
        if apiResp.status = 401 ∨ info.code.isStrEq "invalid_token" = true then
          (.error (.authError ("Agent authentication failed getting scoped credentials: " ++ info.description)
            (some 401)
            (some (if info.code.truthy then info.code else .str "invalid_token"))
            (some info.details)),
           { st with tokenExpiries := upd st.tokenExpiries (audience, some targetInstanceId) 0 })
        else if apiResp.status = 403 ∨ info.code.isStrEq "permission_denied" = true then
          (.error (.authError ("Permission denied getting scoped credentials: " ++ info.description)
            (some 403)
            (some (if info.code.truthy then info.code else .str "permission_denied"))
            (some info.details)), st)
        else
          (.error (.authError ("Failed to get scoped credentials: " ++ info.description)
            (some apiResp.status) (some info.code) (some info.details)), st)
  else
    match apiResp.jsonBody with
    | some (.obj fs) =>
        if (((Json.obj fs).get "access_token").isSome && ((Json.obj fs).get "granted_credential_ids").isSome) = true then
          (.ok (.obj fs), st)
        else
          (.error (.authError "Received unexpected response format from get_scoped_credentials."
            (some apiResp.status) none (some (.obj fs))), st)
    | some _ => (.error (.unexpected "An unexpected error occurred getting scoped credentials."), st)
    | none => (.error (.authError "Network error getting scoped credentials." none none none), st)

/-- Embedding of `PiperClient.get_scoped_credentials_by_id`: resolves the
instance id, validates and cleans the credential-id list, obtains a bearer
token for the scoped-credentials audience, then performs the exchange. -/
def getScopedCredentialsById (cfg : PiperConfig) (st : ClientState)
    (credentialIds : List String) (instanceIdParam : Option String)
    (discovery : DiscoveryOutcome) (now requestStart : Int)
    (tokenResp apiResp : HttpResponse) : ApiOut Json :=
  let ctx := getInstanceIdOrRaise st instanceIdParam discovery
  match ctx.result with
  | .error e =>
      { result := .error e, state := ctx.state, discoveryCalls := ctx.discoveryCalls,
        tokenFetchCalls := 0, apiCalls := 0 }
  | .ok targetInstanceId =>
      if credentialIds = [] then
        { result := .error (.valueError "credential_ids must be a non-empty list."),
          state := ctx.state, discoveryCalls := ctx.discoveryCalls,
          tokenFetchCalls := 0, apiCalls := 0 }
      else
        let cleanedIds := (credentialIds.map pyStrip).filter (fun s => s != "")
        if cleanedIds = [] then
          { result := .error (.valueError "credential_ids list contains only empty strings."),
            state := ctx.state, discoveryCalls := ctx.discoveryCalls,
            tokenFetchCalls := 0, apiCalls := 0 }
        else
          let audience := cfg.getScopedUrl
          let tk := getValidAgentToken ctx.state audience (some targetInstanceId) false
            now requestStart tokenResp
          match tk.result with
          | .error e =>
              { result := .error e, state := tk.state, discoveryCalls := ctx.discoveryCalls,
                tokenFetchCalls := tk.fetchCalls, apiCalls := 0 }
          | .ok _ =>
              let step := scopedApiStep tk.state audience cleanedIds targetInstanceId apiResp
              { result := step.1, state := step.2, discoveryCalls := ctx.discoveryCalls,
                tokenFetchCalls := tk.fetchCalls, apiCalls := 1 }

/-- Error taxonomy of the spec for `get_secret` and the fallback provider. -/
inductive SpecErrKind where
  | invalidArgument
  | configurationError
  | contextNeeded
  | grantNeeded
  | authErr
  | rawSecretExchangeErr
deriving Repr, DecidableEq

/-- Modelled from the spec: which broker-path failures are fallback-eligible
(context missing, grant missing, or any AuthError — never invalid caller input
or a configuration error). -/
def fallbackEligible : SpecErrKind → Bool
  | .contextNeeded => true
  | .grantNeeded => true
  | .authErr => true
  | .rawSecretExchangeErr => true
  | _ => false

/-- Fallback configuration of the client: the fallback toggle, the
environment-variable name prefix and the exact name map. -/
structure FallbackConfig where
  enableEnvFallback : Bool
  envVariablePrefixStr : String
  envVariableMap : List (String × String)

/-- Modelled from the spec: normalization of a variable name into an
environment-variable name — uppercase, with each run of non-alphanumeric
characters replaced by a single underscore. -/
def normalizeEnvVarName (s : String) : String :=
  (s.toList.foldl
    (fun (acc : String × Bool) c =>
      if c.isAlphanum then (acc.1.push c.toUpper, false)
      else if acc.2 then acc
      else (acc.1.push (Char.ofNat 95), true))
    ("", false)).1

/-- Modelled from the spec: the environment-variable name the fallback provider
checks — an exact map entry takes precedence, otherwise prefix + normalized
variable name. -/
def envVarNameFor (cfg : FallbackConfig) (variableName : String) : String :=
  match cfg.envVariableMap.lookup variableName with
  | some n => n
  | none => cfg.envVariablePrefixStr ++ normalizeEnvVarName variableName

/-- Modelled from the spec: the fallback provider `get_fallback` — returns the
environment variable's value if set and non-empty, else `none`. -/
def getFallback (cfg : FallbackConfig) (env : String → Option String)
    (variableName : String) : Option String :=
  match env (envVarNameFor cfg variableName) with
  | some v => if v != "" then some v else none
  | none => none

/-- The uniform return envelope of `get_secret`: source tag, value, and the
environment-variable name used when the source is the environment. -/
structure SecretResult where
  source : String
  value : String
  envVarName : Option String
deriving Repr, DecidableEq

/-- Modelled from the spec: the fallback-or-raise branching of `get_secret`
(absent from `src/piper_sdk/client.py`; only the repository's tests call it).
The broker path (context resolution, variable resolution, credential exchange)
is abstracted as its outcome; on a fallback-eligible failure with fallback
enabled, a set and non-empty environment variable yields a result tagged
`environment_variable`, and otherwise the original error propagates. -/
def getSecretSpec (cfg : FallbackConfig) (env : String → Option String)
    (variableName : String) (brokerOutcome : Except SpecErrKind SecretResult) :
    Except SpecErrKind SecretResult :=
  match brokerOutcome with
  | .ok r => .ok r
  | .error e =>
      if cfg.enableEnvFallback = true ∧ fallbackEligible e = true then
        match getFallback cfg env variableName with
        | some v =>
            .ok { source := "environment_variable", value := v,
                  envVarName := some (envVarNameFor cfg variableName) }
        | none => .error e
      else .error e

/-- Well-formedness of the token cache: every cached token is truthy.  This
holds for a fresh client and is preserved by every operation, since
`_fetch_agent_token` raises before a falsy access token can be cached. -/
def CacheWF (st : ClientState) : Prop :=
  ∀ k j, st.accessTokens k = some j → j.truthy = true

/-- Whether a discovery outcome is the success case: a JSON object whose
`instanceId` field is a truthy string. -/
def isDiscoverySuccess : DiscoveryOutcome → Bool
  | .response (.obj fs) =>
      match (Json.obj fs).get "instanceId" with
      | some (.str s) => s != ""
      | _ => false
  | _ => false

/-- Concrete client configuration used by the evaluation theorems. -/
def cfgW : PiperConfig :=
  { clientId := "test_agent_id_123",
    resolveMappingUrl := "https://resolve.example",
    getScopedUrl := "https://scoped.example" }

/-- Concrete successful token-endpoint response used by the evaluation theorems. -/
def tokRespW : HttpResponse :=
  { status := 200,
    jsonBody := some (.obj [("access_token", .str "jwt1"), ("expires_in", .num 3600)]),
    text := "" }

/-- Concrete token-endpoint response whose `expires_in` is not parseable as an
integer. -/
def tokRespBadExpW : HttpResponse :=
  { status := 200,
    jsonBody := some (.obj [("access_token", .str "jwt2"), ("expires_in", .str "soon")]),
    text := "" }

/-- Concrete 404 `mapping_not_found` broker response. -/
def resp404W : HttpResponse :=
  { status := 404,
    jsonBody := some (.obj [("error", .str "mapping_not_found"), ("message", .str "Grant not found")]),
    text := "" }

/-- Concrete 401 `invalid_token` broker response. -/
def resp401W : HttpResponse :=
  { status := 401,
    jsonBody := some (.obj [("error", .str "invalid_token")]),
    text := "" }

/-- Concrete successful scoped-credentials response granting only one of two
requested credential ids. -/
def respPartialW : HttpResponse :=
  { status := 200,
    jsonBody := some (.obj [("access_token", .str "sts_tok"), ("expires_in", .num 900),
      ("granted_credential_ids", .arr [.str "cred-1"])]),
    text := "" }

/-- Concrete client state holding one cached token. -/
def stW : ClientState :=
  { accessTokens := upd (fun _ => none) ("aud", some "iid") (some (.str "tokA")),
    tokenExpiries := upd (fun _ => 0) ("aud", some "iid") 1000,
    discoveredInstanceId := none }

/-- Concrete fallback configuration mapping `MyTestApiKey` to
`TEST_API_KEY_ENV_VAR`. -/
def cfg6 : FallbackConfig :=
  { enableEnvFallback := true,
    envVariablePrefixStr := "",
    envVariableMap := [("MyTestApiKey", "TEST_API_KEY_ENV_VAR")] }

/-- Concrete environment with `TEST_API_KEY_ENV_VAR` set. -/
def env6 : String → Option String :=
  fun n => if n = "TEST_API_KEY_ENV_VAR" then some "env_secret_value" else none

/-- Concrete environment with nothing set. -/
def env6Empty : String → Option String := fun _ => none

/-- The message the embedded code produces for a missing grant mapping of
variable `MyTestApiKey` under instance `test-instance-id-789`. -/
def msgC2 : String :=
  "No active grant mapping found for variable " ++ sq ++ "MyTestApiKey" ++ sq ++
    " for context of instance " ++ sq ++ "test-instance-id-789" ++ sq ++ "."

/-! ## Theorems -/

/-- Truthiness of an optional JSON value unpacked. -/
theorem jsonOptTruthy_eq_true {o : Option Json} :
    jsonOptTruthy o = true ↔ ∃ j, o = some j ∧ j.truthy = true := by
  cases o <;> simp [jsonOptTruthy]

/-- A fresh client has a well-formed token cache. -/
theorem cacheWF_initialState : CacheWF initialState := by
  intro k j h
  simp [initialState] at h

/-- A token returned by a successful `_fetch_agent_token` is truthy. -/
theorem fetchAgentToken_ok_truthy {resp : HttpResponse} {requestStart : Int}
    {tok : Json} {expiry : Int}
    (h : fetchAgentToken resp requestStart = .ok (tok, expiry)) : tok.truthy = true := by
  simp only [fetchAgentToken] at h
  split at h
  · split at h <;> cases h
  · split at h
    · split at h
      · rename_i htr
        cases h
        exact htr
      · cases h
    · cases h
    · cases h

/-- Evaluation of `_fetch_agent_token` on a success-status response whose body
is an object carrying a truthy access token. -/
theorem fetchAgentToken_success_eval {resp : HttpResponse} (requestStart : Int)
    {fs : List (String × Json)} {tok : Json}
    (hstatus : ¬ (400 ≤ resp.status ∧ resp.status < 600))
    (hbody : resp.jsonBody = some (.obj fs))
    (htok : (Json.obj fs).get "access_token" = some tok)
    (htr : tok.truthy = true) :
    fetchAgentToken resp requestStart =
      .ok (tok, requestStart + (pyInt (((Json.obj fs).get "expires_in").getD (.num 0))).getD 0) := by
  simp only [fetchAgentToken, hbody, htok]
  rw [if_neg hstatus]
  simp [htr]

/-- The cache-miss branch of `_get_valid_agent_token`, when the fetch succeeds:
the fetched token is returned and cached under the call's key together with
its absolute expiry. -/
theorem getValidAgentToken_miss_ok
    (st : ClientState) (audience : String) (instanceId : Option String)
    (forceRefresh : Bool) (now requestStart : Int) (tokenResp : HttpResponse)
    {tok : Json} {expiry : Int}
    (hmiss : ¬ (forceRefresh = false ∧
      jsonOptTruthy (st.accessTokens (audience, instanceId)) = true ∧
      st.tokenExpiries (audience, instanceId) > now + DEFAULT_TOKEN_EXPIRY_BUFFER_SECONDS))
    (hfetch : fetchAgentToken tokenResp requestStart = .ok (tok, expiry)) :
    getValidAgentToken st audience instanceId forceRefresh now requestStart tokenResp =
      { result := .ok tok,
        state := { st with
          accessTokens := upd st.accessTokens (audience, instanceId) (some tok),
          tokenExpiries := upd st.tokenExpiries (audience, instanceId) expiry },
        fetchCalls := 1 } := by
  simp only [getValidAgentToken, hfetch]
  rw [if_neg hmiss]

/-- A cache entry whose expiry is not beyond now plus the buffer forces
`_get_valid_agent_token` to issue exactly one token fetch. -/
theorem getValidAgentToken_stale_fetches
    (st : ClientState) (audience : String) (instanceId : Option String)
    (forceRefresh : Bool) (now requestStart : Int) (tokenResp : HttpResponse)
    (hexp : st.tokenExpiries (audience, instanceId) ≤ now + DEFAULT_TOKEN_EXPIRY_BUFFER_SECONDS) :
    (getValidAgentToken st audience instanceId forceRefresh now requestStart tokenResp).fetchCalls = 1 := by
  simp only [getValidAgentToken]
  split
  · rename_i h
    exact absurd h.2.2 (by omega)
  · split <;> rfl

/-- `_get_valid_agent_token` preserves token-cache well-formedness. -/
theorem getValidAgentToken_preserves_cacheWF
    (st : ClientState) (audience : String) (instanceId : Option String)
    (forceRefresh : Bool) (now requestStart : Int) (tokenResp : HttpResponse)
    (hwf : CacheWF st) :
    CacheWF (getValidAgentToken st audience instanceId forceRefresh now requestStart tokenResp).state := by
  simp only [getValidAgentToken]
  split
  · exact hwf
  · split
    · rename_i p heq
      intro k j h
      simp only [upd] at h
      split at h
      · cases h
        exact fetchAgentToken_ok_truthy heq
      · exact hwf k j h
    · exact hwf

/-- Changes `_get_valid_agent_token` makes to the token cache are confined to
the (audience, instance id) key of the call. -/
theorem getValidAgentToken_frame
    (st : ClientState) (audience : String) (instanceId : Option String)
    (forceRefresh : Bool) (now requestStart : Int) (tokenResp : HttpResponse) :
    ∀ k, k ≠ (audience, instanceId) →
      (getValidAgentToken st audience instanceId forceRefresh now requestStart tokenResp).state.accessTokens k
        = st.accessTokens k ∧
      (getValidAgentToken st audience instanceId forceRefresh now requestStart tokenResp).state.tokenExpiries k
        = st.tokenExpiries k := by
  intro k hk
  simp only [getValidAgentToken]
  split
  · exact ⟨rfl, rfl⟩
  · split
    · simp [upd, hk]
    · exact ⟨rfl, rfl⟩

/-- C1: if a token is cached for the (audience, user-context) pair, its cached
expiry exceeds now plus the 60-second buffer and no forced refresh is
requested, then `_get_valid_agent_token` issues no token-endpoint request,
returns exactly the cached token, and leaves the client state unchanged. -/
theorem C1_cached_token_reused
    (st : ClientState) (audience : String) (instanceId : Option String)
    (now requestStart : Int) (tokenResp : HttpResponse) (tok : Json)
    (hwf : CacheWF st)
    (hcache : st.accessTokens (audience, instanceId) = some tok)
    (hexp : st.tokenExpiries (audience, instanceId) > now + DEFAULT_TOKEN_EXPIRY_BUFFER_SECONDS) :
    (getValidAgentToken st audience instanceId false now requestStart tokenResp).fetchCalls = 0 ∧
    (getValidAgentToken st audience instanceId false now requestStart tokenResp).result = .ok tok ∧
    (getValidAgentToken st audience instanceId false now requestStart tokenResp).state = st := by
  have htr : tok.truthy = true := hwf _ _ hcache
  unfold getValidAgentToken
  rw [if_pos ⟨rfl, by simp [hcache, jsonOptTruthy, htr], hexp⟩]
  simp [hcache]

/-- C1 witness: a concrete cached token is returned without any fetch. -/
theorem C1_cached_token_reused_witness :
    (getValidAgentToken stW "aud" (some "iid") false 0 1 tokRespW).fetchCalls = 0 ∧
    (getValidAgentToken stW "aud" (some "iid") false 0 1 tokRespW).result = .ok (.str "tokA") ∧
    (getValidAgentToken stW "aud" (some "iid") false 0 1 tokRespW).state = stW :=
  C1_cached_token_reused stW "aud" (some "iid") 0 1 tokRespW (.str "tokA")
    (by
      intro k j h
      simp only [stW, upd] at h
      split at h
      · cases h; rfl
      · cases h)
    (by
      simp [stW, upd])
    (by
      simp [stW, upd, DEFAULT_TOKEN_EXPIRY_BUFFER_SECONDS])

/-- C7: a cached bearer token is reused (no token-endpoint request) only when
no refresh was forced, and only from the exact (audience, user-context) key of
the call, while that entry's cached expiry exceeds now plus the safety
buffer — the returned token is literally the entry cached under that key. -/
theorem C7_token_reuse_invariant
    (st : ClientState) (audience : String) (instanceId : Option String)
    (forceRefresh : Bool) (now requestStart : Int) (tokenResp : HttpResponse)
    (hreuse : (getValidAgentToken st audience instanceId forceRefresh now requestStart tokenResp).fetchCalls = 0) :
    forceRefresh = false ∧
    ∃ tok, st.accessTokens (audience, instanceId) = some tok ∧
      tok.truthy = true ∧
      st.tokenExpiries (audience, instanceId) > now + DEFAULT_TOKEN_EXPIRY_BUFFER_SECONDS ∧
      (getValidAgentToken st audience instanceId forceRefresh now requestStart tokenResp).result = .ok tok := by
  unfold getValidAgentToken at hreuse ⊢
  by_cases h : forceRefresh = false ∧
      jsonOptTruthy (st.accessTokens (audience, instanceId)) = true ∧
      st.tokenExpiries (audience, instanceId) > now + DEFAULT_TOKEN_EXPIRY_BUFFER_SECONDS
  · obtain ⟨hf, htr, hexp⟩ := h
    obtain ⟨tok, hcache, htok⟩ := jsonOptTruthy_eq_true.mp htr
    refine ⟨hf, tok, hcache, htok, hexp, ?_⟩
    rw [if_pos ⟨hf, htr, hexp⟩]
    simp [hcache]
  · rw [if_neg h] at hreuse
    split at hreuse
    · cases hreuse
    · cases hreuse

/-- C7 witness: the invariant applied to a concrete reuse. -/
theorem C7_token_reuse_invariant_witness :
    false = false ∧
    ∃ tok, stW.accessTokens ("aud", some "iid") = some tok ∧
      tok.truthy = true ∧
      stW.tokenExpiries ("aud", some "iid") > 0 + DEFAULT_TOKEN_EXPIRY_BUFFER_SECONDS ∧
      (getValidAgentToken stW "aud" (some "iid") false 0 1 tokRespW).result = .ok tok :=
  C7_token_reuse_invariant stW "aud" (some "iid") false 0 1 tokRespW
    (by simp [getValidAgentToken, stW, upd, jsonOptTruthy, Json.truthy, DEFAULT_TOKEN_EXPIRY_BUFFER_SECONDS])

/-- C9: when the cached expiry for the key is not beyond now plus the buffer,
`_get_valid_agent_token` performs exactly one token fetch before returning
and, on a successful token response, caches the fetched token under the call's
key with absolute expiry equal to the request start time plus the response's
`expires_in`. -/
theorem C9_fetch_caches_absolute_expiry
    (st : ClientState) (audience : String) (instanceId : Option String)
    (now requestStart : Int) (tokenResp : HttpResponse)
    (fs : List (String × Json)) (tok : Json) (e : Int)
    (hmiss : ¬ st.tokenExpiries (audience, instanceId) > now + DEFAULT_TOKEN_EXPIRY_BUFFER_SECONDS)
    (hstatus : ¬ (400 ≤ tokenResp.status ∧ tokenResp.status < 600))
    (hbody : tokenResp.jsonBody = some (.obj fs))
    (htok : (Json.obj fs).get "access_token" = some tok)
    (htr : tok.truthy = true)
    (hexp : (Json.obj fs).get "expires_in" = some (.num e)) :
    (getValidAgentToken st audience instanceId false now requestStart tokenResp).fetchCalls = 1 ∧
    (getValidAgentToken st audience instanceId false now requestStart tokenResp).result = .ok tok ∧
    (getValidAgentToken st audience instanceId false now requestStart tokenResp).state.accessTokens
      (audience, instanceId) = some tok ∧
    (getValidAgentToken st audience instanceId false now requestStart tokenResp).state.tokenExpiries
      (audience, instanceId) = requestStart + e := by
  have hfetch : fetchAgentToken tokenResp requestStart = .ok (tok, requestStart + e) := by
    rw [fetchAgentToken_success_eval requestStart hstatus hbody htok htr, hexp]
    simp [pyInt]
  have hm : ¬ (false = false ∧
      jsonOptTruthy (st.accessTokens (audience, instanceId)) = true ∧
      st.tokenExpiries (audience, instanceId) > now + DEFAULT_TOKEN_EXPIRY_BUFFER_SECONDS) := by
    intro hcon
    exact hmiss hcon.2.2
  rw [getValidAgentToken_miss_ok st audience instanceId false now requestStart tokenResp hm hfetch]
  simp [upd]

/-- C9 witness: a concrete expired cache entry triggers one fetch and caches
request start plus `expires_in`. -/
theorem C9_fetch_caches_absolute_expiry_witness :
    (getValidAgentToken initialState "aud" (some "iid") false 100 101 tokRespW).fetchCalls = 1 ∧
    (getValidAgentToken initialState "aud" (some "iid") false 100 101 tokRespW).result = .ok (.str "jwt1") ∧
    (getValidAgentToken initialState "aud" (some "iid") false 100 101 tokRespW).state.accessTokens
      ("aud", some "iid") = some (.str "jwt1") ∧
    (getValidAgentToken initialState "aud" (some "iid") false 100 101 tokRespW).state.tokenExpiries
      ("aud", some "iid") = 101 + 3600 :=
  C9_fetch_caches_absolute_expiry initialState "aud" (some "iid") 100 101 tokRespW
    [("access_token", .str "jwt1"), ("expires_in", .num 3600)] (.str "jwt1") 3600
    (by decide) (by decide)
    (by rfl) (by rfl) (by rfl) (by rfl)

/-- C10: a token-endpoint success response whose `expires_in` is missing or is
unparseable as an integer does not raise — the access token is still returned,
but it is cached with expiry equal to the request start time, so any
subsequent call for the same (audience, user-context) key (made at a time no
earlier than 60 seconds before the request start) issues a fresh fetch. -/
theorem C10_unparseable_expires_in
    (st : ClientState) (audience : String) (instanceId : Option String)
    (now requestStart : Int) (tokenResp : HttpResponse)
    (fs : List (String × Json)) (tok : Json)
    (hmiss : ¬ st.tokenExpiries (audience, instanceId) > now + DEFAULT_TOKEN_EXPIRY_BUFFER_SECONDS)
    (hstatus : ¬ (400 ≤ tokenResp.status ∧ tokenResp.status < 600))
    (hbody : tokenResp.jsonBody = some (.obj fs))
    (htok : (Json.obj fs).get "access_token" = some tok)
    (htr : tok.truthy = true)
    (hexp : (Json.obj fs).get "expires_in" = none ∨
      ∃ raw, (Json.obj fs).get "expires_in" = some raw ∧ pyInt raw = none) :
    (getValidAgentToken st audience instanceId false now requestStart tokenResp).result = .ok tok ∧
    (getValidAgentToken st audience instanceId false now requestStart tokenResp).state.tokenExpiries
      (audience, instanceId) = requestStart ∧
    (∀ (now2 requestStart2 : Int) (tokenResp2 : HttpResponse), requestStart ≤ now2 + DEFAULT_TOKEN_EXPIRY_BUFFER_SECONDS →
      (getValidAgentToken
        (getValidAgentToken st audience instanceId false now requestStart tokenResp).state
        audience instanceId false now2 requestStart2 tokenResp2).fetchCalls = 1) := by
  have hfetch : fetchAgentToken tokenResp requestStart = .ok (tok, requestStart) := by
    rw [fetchAgentToken_success_eval requestStart hstatus hbody htok htr]
    rcases hexp with h | ⟨raw, hraw, hparse⟩
    · rw [h]
      simp [pyInt]
    · rw [hraw]
      simp [hparse]
  have hm : ¬ (false = false ∧
      jsonOptTruthy (st.accessTokens (audience, instanceId)) = true ∧
      st.tokenExpiries (audience, instanceId) > now + DEFAULT_TOKEN_EXPIRY_BUFFER_SECONDS) := by
    intro hcon
    exact hmiss hcon.2.2
  rw [getValidAgentToken_miss_ok st audience instanceId false now requestStart tokenResp hm hfetch]
  refine ⟨rfl, by simp [upd], ?_⟩
  intro now2 requestStart2 tokenResp2 hle
  exact getValidAgentToken_stale_fetches _ audience instanceId false now2 requestStart2 tokenResp2
    (by simpa [upd] using hle)

/-- C10 witness: a string `expires_in` that is not an integer yields an
immediately stale cache entry and a refetch on the next call. -/
theorem C10_unparseable_expires_in_witness :
    (getValidAgentToken initialState "aud" (some "iid") false 100 101 tokRespBadExpW).result = .ok (.str "jwt2") ∧
    (getValidAgentToken initialState "aud" (some "iid") false 100 101 tokRespBadExpW).state.tokenExpiries
      ("aud", some "iid") = 101 ∧
    (∀ (now2 requestStart2 : Int) (tokenResp2 : HttpResponse), (101 : Int) ≤ now2 + DEFAULT_TOKEN_EXPIRY_BUFFER_SECONDS →
      (getValidAgentToken
        (getValidAgentToken initialState "aud" (some "iid") false 100 101 tokRespBadExpW).state
        "aud" (some "iid") false now2 requestStart2 tokenResp2).fetchCalls = 1) :=
  C10_unparseable_expires_in initialState "aud" (some "iid") 100 101 tokRespBadExpW
    [("access_token", .str "jwt2"), ("expires_in", .str "soon")] (.str "jwt2")
    (by decide) (by decide)
    (by rfl) (by rfl) (by rfl)
    (.inr ⟨.str "soon", by rfl, by rfl⟩)

/-- C5: whenever `discover_local_instance_id` actually queries the local
service (no truthy cached id, or a forced refresh) and the query does not
produce an object with a truthy string `instanceId` — connection refused,
timeout, HTTP error, malformed body, missing field or any other failure — it
returns `None` instead of raising and caches that negative result in memory. -/
theorem C5_discovery_failure_cached_none
    (st : ClientState) (forceRefresh : Bool) (outcome : DiscoveryOutcome)
    (hrun : ¬ (strOptTruthy st.discoveredInstanceId = true ∧ forceRefresh = false))
    (hfail : isDiscoverySuccess outcome = false) :
    (discoverLocalInstanceId st forceRefresh outcome).result = none ∧
    (discoverLocalInstanceId st forceRefresh outcome).state.discoveredInstanceId = none ∧
    (discoverLocalInstanceId st forceRefresh outcome).netCalls = 1 := by
  unfold discoverLocalInstanceId
  rw [if_neg hrun]
  cases outcome with
  | response body =>
      cases body with
      | obj fs =>
          simp only [isDiscoverySuccess] at hfail
          cases hget : (Json.obj fs).get "instanceId" with
          | none => simp [hget]
          | some j =>
              cases j with
              | str s =>
                  rw [hget] at hfail
                  have hs : s = "" := by simpa using hfail
                  subst hs
                  simp [hget]
              | null => simp [hget]
              | bool b => simp [hget]
              | num n => simp [hget]
              | arr xs => simp [hget]
              | obj fs2 => simp [hget]
      | null => exact ⟨rfl, rfl, rfl⟩
      | bool b => exact ⟨rfl, rfl, rfl⟩
      | num n => exact ⟨rfl, rfl, rfl⟩
      | str s => exact ⟨rfl, rfl, rfl⟩
      | arr xs => exact ⟨rfl, rfl, rfl⟩
  | connectionError => exact ⟨rfl, rfl, rfl⟩
  | timeout => exact ⟨rfl, rfl, rfl⟩
  | requestError s => exact ⟨rfl, rfl, rfl⟩
  | otherError => exact ⟨rfl, rfl, rfl⟩

/-- C5 witness: a connection failure on a fresh client caches `None`. -/
theorem C5_discovery_failure_cached_none_witness :
    (discoverLocalInstanceId initialState false .connectionError).result = none ∧
    (discoverLocalInstanceId initialState false .connectionError).state.discoveredInstanceId = none ∧
    (discoverLocalInstanceId initialState false .connectionError).netCalls = 1 :=
  C5_discovery_failure_cached_none initialState false .connectionError
    (by simp [initialState, strOptTruthy]) (by rfl)

/-- C6: when the broker path of `get_secret` fails with a
ContextNeeded/GrantNeeded/Auth error and fallback is enabled, the result is
tagged `environment_variable` and carries the resolved environment variable's
value when that variable is set and non-empty, and the original broker error
propagates when it is not set. -/
theorem C6_fallback_env_or_propagate
    (cfg : FallbackConfig) (env : String → Option String) (variableName : String)
    (e : SpecErrKind)
    (hen : cfg.enableEnvFallback = true)
    (he : e = .contextNeeded ∨ e = .grantNeeded ∨ e = .authErr) :
    (∀ v, env (envVarNameFor cfg variableName) = some v → v ≠ "" →
      getSecretSpec cfg env variableName (.error e) =
        .ok { source := "environment_variable", value := v,
              envVarName := some (envVarNameFor cfg variableName) }) ∧
    (env (envVarNameFor cfg variableName) = none →
      getSecretSpec cfg env variableName (.error e) = .error e) := by
  have helig : fallbackEligible e = true := by
    rcases he with h | h | h <;> rw [h] <;> rfl
  constructor
  · intro v hv hne
    simp [getSecretSpec, getFallback, hen, helig, hv, hne]
  · intro hv
    simp [getSecretSpec, getFallback, hen, helig, hv]

/-- C6 witness: a grant-needed failure with a mapped, set environment variable
falls back to it, and with an unset one the error propagates. -/
theorem C6_fallback_env_or_propagate_witness :
    ((fun v => env6 (envVarNameFor cfg6 "MyTestApiKey") = some v → v ≠ "" →
        getSecretSpec cfg6 env6 "MyTestApiKey" (.error .grantNeeded) =
          .ok { source := "environment_variable", value := v,
                envVarName := some (envVarNameFor cfg6 "MyTestApiKey") }) "env_secret_value") ∧
    (env6Empty (envVarNameFor cfg6 "MyTestApiKey") = none →
      getSecretSpec cfg6 env6Empty "MyTestApiKey" (.error .grantNeeded) = .error .grantNeeded) :=
  ⟨(C6_fallback_env_or_propagate cfg6 env6 "MyTestApiKey" .grantNeeded rfl (.inr (.inl rfl))).1
      "env_secret_value",
   (C6_fallback_env_or_propagate cfg6 env6Empty "MyTestApiKey" .grantNeeded rfl (.inr (.inl rfl))).2⟩

/-- A truthy explicit instance id short-circuits `_get_instance_id_or_raise`
without discovery. -/
theorem getInstanceIdOrRaise_param (st : ClientState) (iid : String) (hiid : iid ≠ "")
    (disc : DiscoveryOutcome) :
    getInstanceIdOrRaise st (some iid) disc =
      { result := .ok iid, state := st, discoveryCalls := 0 } := by
  simp [getInstanceIdOrRaise, strOptTruthy, hiid]

/-- When the instance id is available (explicitly or cached),
`get_credential_id_for_variable` with a valid variable name and a successful
token step reduces to the mapping-call handling. -/
theorem getCredentialIdForVariable_reaches_api
    (cfg : PiperConfig) (st : ClientState) (variableName iid : String)
    (disc : DiscoveryOutcome) (now requestStart : Int)
    (tokenResp apiResp : HttpResponse) (tok : Json)
    (hiid : iid ≠ "") (hv0 : variableName ≠ "") (hvt : pyStrip variableName ≠ "")
    (htok : (getValidAgentToken st cfg.resolveMappingUrl (some iid) false now requestStart tokenResp).result = .ok tok) :
    getCredentialIdForVariable cfg st variableName (some iid) disc now requestStart tokenResp apiResp =
      { result := (resolveApiStep
          (getValidAgentToken st cfg.resolveMappingUrl (some iid) false now requestStart tokenResp).state
          cfg.resolveMappingUrl (pyStrip variableName) iid apiResp).1,
        state := (resolveApiStep
          (getValidAgentToken st cfg.resolveMappingUrl (some iid) false now requestStart tokenResp).state
          cfg.resolveMappingUrl (pyStrip variableName) iid apiResp).2,
        discoveryCalls := 0,
        tokenFetchCalls := (getValidAgentToken st cfg.resolveMappingUrl (some iid) false now requestStart tokenResp).fetchCalls,
        apiCalls := 1 } := by
  have hctx := getInstanceIdOrRaise_param st iid hiid disc
  simp only [getCredentialIdForVariable, hctx]
  simp [hv0, hvt, htok]

/-- When the instance id is available, `get_scoped_credentials_by_id` with a
valid id list and a successful token step reduces to the exchange handling. -/
theorem getScopedCredentialsById_reaches_api
    (cfg : PiperConfig) (st : ClientState) (credentialIds : List String) (iid : String)
    (disc : DiscoveryOutcome) (now requestStart : Int)
    (tokenResp apiResp : HttpResponse) (tok : Json)
    (hiid : iid ≠ "") (hids : credentialIds ≠ [])
    (hclean : (credentialIds.map pyStrip).filter (fun s => s != "") ≠ [])
    (htok : (getValidAgentToken st cfg.getScopedUrl (some iid) false now requestStart tokenResp).result = .ok tok) :
    getScopedCredentialsById cfg st credentialIds (some iid) disc now requestStart tokenResp apiResp =
      { result := (scopedApiStep
          (getValidAgentToken st cfg.getScopedUrl (some iid) false now requestStart tokenResp).state
          cfg.getScopedUrl ((credentialIds.map pyStrip).filter (fun s => s != "")) iid apiResp).1,
        state := (scopedApiStep
          (getValidAgentToken st cfg.getScopedUrl (some iid) false now requestStart tokenResp).state
          cfg.getScopedUrl ((credentialIds.map pyStrip).filter (fun s => s != "")) iid apiResp).2,
        discoveryCalls := 0,
        tokenFetchCalls := (getValidAgentToken st cfg.getScopedUrl (some iid) false now requestStart tokenResp).fetchCalls,
        apiCalls := 1 } := by
  have hctx := getInstanceIdOrRaise_param st iid hiid disc
  simp only [getScopedCredentialsById, hctx]
  simp [hids, hclean, htok]

/-- A 401 / `invalid_token` mapping-resolution response makes `resolveApiStep`
raise after zeroing exactly the call's token-cache expiry entry. -/
theorem resolveApiStep_unauthorized
    (st : ClientState) (aud var iid : String) (resp : HttpResponse) (info : ErrInfo)
    (hs : 400 ≤ resp.status ∧ resp.status < 600)
    (hinfo : parseErrInfo resp.status resp = some info)
    (hc : resp.status = 401 ∨ info.code.isStrEq "invalid_token" = true) :
    (∃ e, (resolveApiStep st aud var iid resp).1 = .error e) ∧
    (resolveApiStep st aud var iid resp).2.tokenExpiries (aud, some iid) = 0 ∧
    (∀ k, k ≠ (aud, some iid) → (resolveApiStep st aud var iid resp).2.tokenExpiries k = st.tokenExpiries k) ∧
    (resolveApiStep st aud var iid resp).2.accessTokens = st.accessTokens := by
  simp only [resolveApiStep, hinfo]
  rw [if_pos hs]
  simp only [if_pos hc]
  by_cases h404 : resp.status = 404 ∨ info.code.isStrEq "mapping_not_found" = true
  · rw [if_pos h404]
    exact ⟨⟨_, rfl⟩, by simp [upd], fun k hk => by simp [upd, hk], rfl⟩
  · rw [if_neg h404]
    exact ⟨⟨_, rfl⟩, by simp [upd], fun k hk => by simp [upd, hk], rfl⟩

/-- A 401 / `invalid_token` scoped-credentials response makes `scopedApiStep`
raise after zeroing exactly the call's token-cache expiry entry. -/
theorem scopedApiStep_unauthorized
    (st : ClientState) (aud : String) (ids : List String) (iid : String)
    (resp : HttpResponse) (info : ErrInfo)
    (hs : 400 ≤ resp.status ∧ resp.status < 600)
    (hinfo : parseErrInfo resp.status resp = some info)
    (hc : resp.status = 401 ∨ info.code.isStrEq "invalid_token" = true) :
    (∃ e, (scopedApiStep st aud ids iid resp).1 = .error e) ∧
    (scopedApiStep st aud ids iid resp).2.tokenExpiries (aud, some iid) = 0 ∧
    (∀ k, k ≠ (aud, some iid) → (scopedApiStep st aud ids iid resp).2.tokenExpiries k = st.tokenExpiries k) ∧
    (scopedApiStep st aud ids iid resp).2.accessTokens = st.accessTokens := by
  simp only [scopedApiStep, hinfo]
  rw [if_pos hs]
  simp only [if_pos hc]
  exact ⟨⟨_, rfl⟩, by simp [upd], fun k hk => by simp [upd, hk], by trivial⟩

/-- C3 counterexample: with no explicit, cached or discoverable instance id,
`get_credential_id_for_variable` on an empty variable name performs one local
discovery query and raises `PiperLinkNeededError` — not `ValueError`, and not
without a network call — because the instance id is resolved before the
variable name is validated. -/
theorem C3_counterexample :
    (getCredentialIdForVariable cfgW initialState "" none .connectionError 0 1 tokRespW resp404W).result
      = .error .linkNeeded ∧
    (getCredentialIdForVariable cfgW initialState "" none .connectionError 0 1 tokRespW resp404W).discoveryCalls
      = 1 := by
  exact ⟨rfl, rfl⟩

/-- C3 (amended): when an instance id is available without discovery (a truthy
explicit argument or a truthy cached id), `get_credential_id_for_variable` on
an empty or whitespace-only variable name raises `ValueError` with no
discovery, token or broker request and with the client state unchanged; when
no instance context is available the call instead attempts discovery first and
raises `PiperLinkNeededError`. -/
theorem C3_amended_invalid_name_no_network
    (cfg : PiperConfig) (st : ClientState) (variableName : String)
    (instanceIdParam : Option String) (disc : DiscoveryOutcome)
    (now requestStart : Int) (tokenResp apiResp : HttpResponse)
    (hctx : strOptTruthy instanceIdParam = true ∨ strOptTruthy st.discoveredInstanceId = true)
    (hvar : pyStrip variableName = "") :
    (∃ m, (getCredentialIdForVariable cfg st variableName instanceIdParam disc now requestStart tokenResp apiResp).result
      = .error (.valueError m)) ∧
    (getCredentialIdForVariable cfg st variableName instanceIdParam disc now requestStart tokenResp apiResp).discoveryCalls = 0 ∧
    (getCredentialIdForVariable cfg st variableName instanceIdParam disc now requestStart tokenResp apiResp).tokenFetchCalls = 0 ∧
    (getCredentialIdForVariable cfg st variableName instanceIdParam disc now requestStart tokenResp apiResp).apiCalls = 0 ∧
    (getCredentialIdForVariable cfg st variableName instanceIdParam disc now requestStart tokenResp apiResp).state = st := by
  have hctx2 : ∃ t, getInstanceIdOrRaise st instanceIdParam disc =
      { result := .ok t, state := st, discoveryCalls := 0 } := by
    rcases hctx with h | h
    · exact ⟨instanceIdParam.getD "", by simp [getInstanceIdOrRaise, h]⟩
    · by_cases hp : strOptTruthy instanceIdParam = true
      · exact ⟨instanceIdParam.getD "", by simp [getInstanceIdOrRaise, hp]⟩
      · exact ⟨st.discoveredInstanceId.getD "", by simp [getInstanceIdOrRaise, hp, h]⟩
  obtain ⟨t, hctx2⟩ := hctx2
  by_cases hv0 : variableName = ""
  · refine ⟨⟨"variable_name must be non-empty string.", ?_⟩, ?_, ?_, ?_, ?_⟩ <;>
      simp [getCredentialIdForVariable, hctx2, hv0]
  · refine ⟨⟨"variable_name cannot be empty.", ?_⟩, ?_, ?_, ?_, ?_⟩ <;>
      simp [getCredentialIdForVariable, hctx2, hv0, hvar]

/-- C3 amended witness: a whitespace-only name with an explicit instance id. -/
theorem C3_amended_invalid_name_no_network_witness :
    (∃ m, (getCredentialIdForVariable cfgW initialState "  " (some "test-instance-id-789") .connectionError 0 1 tokRespW resp404W).result
      = .error (.valueError m)) ∧
    (getCredentialIdForVariable cfgW initialState "  " (some "test-instance-id-789") .connectionError 0 1 tokRespW resp404W).discoveryCalls = 0 ∧
    (getCredentialIdForVariable cfgW initialState "  " (some "test-instance-id-789") .connectionError 0 1 tokRespW resp404W).tokenFetchCalls = 0 ∧
    (getCredentialIdForVariable cfgW initialState "  " (some "test-instance-id-789") .connectionError 0 1 tokRespW resp404W).apiCalls = 0 ∧
    (getCredentialIdForVariable cfgW initialState "  " (some "test-instance-id-789") .connectionError 0 1 tokRespW resp404W).state = initialState :=
  C3_amended_invalid_name_no_network cfgW initialState "  " (some "test-instance-id-789")
    .connectionError 0 1 tokRespW resp404W (.inl (by decide)) (by decide)

/-- C2: on a 404 `mapping_not_found` mapping response the embedded code raises
a plain `PiperAuthError` whose message names the variable and the instance but
contains no grant-management URL — no `manage_grants` scope parameter, no
`client=` query parameter and no URL at all — contrary to the specified
`GrantNeededError` with a constructed grant URL (which the repository's own
`quick_sdk_test.py` test_06 expects). -/
theorem C2_mapping_not_found_has_no_grant_url :
    (getCredentialIdForVariable cfgW initialState "MyTestApiKey" (some "test-instance-id-789")
        .connectionError 0 1 tokRespW resp404W).result =
      .error (.authError msgC2 (some 404) (some (.str "mapping_not_found"))
        (some (.obj [("error", .str "mapping_not_found"), ("message", .str "Grant not found")]))) ∧
    strContains msgC2 "manage_grants" = false ∧
    strContains msgC2 "scope=" = false ∧
    strContains msgC2 "client=" = false ∧
    strContains msgC2 "http" = false := by
  exact ⟨rfl, rfl, rfl, rfl, rfl⟩

/-- C8: a successful scoped-credentials response containing both an access
token and a granted-identifier list is returned in full and unchanged by
`get_scoped_credentials_by_id`, whatever the granted set — a partial grant is
not raised as an error. -/
theorem C8_partial_grant_full_response
    (cfg : PiperConfig) (st : ClientState) (credentialIds : List String) (iid : String)
    (disc : DiscoveryOutcome) (now requestStart : Int)
    (tokenResp apiResp : HttpResponse) (tok : Json) (fs : List (String × Json))
    (hiid : iid ≠ "") (hids : credentialIds ≠ [])
    (hclean : (credentialIds.map pyStrip).filter (fun s => s != "") ≠ [])
    (htok : (getValidAgentToken st cfg.getScopedUrl (some iid) false now requestStart tokenResp).result = .ok tok)
    (hstatus : ¬ (400 ≤ apiResp.status ∧ apiResp.status < 600))
    (hbody : apiResp.jsonBody = some (.obj fs))
    (hka : ((Json.obj fs).get "access_token").isSome = true)
    (hkg : ((Json.obj fs).get "granted_credential_ids").isSome = true) :
    (getScopedCredentialsById cfg st credentialIds (some iid) disc now requestStart tokenResp apiResp).result
      = .ok (.obj fs) ∧
    (getScopedCredentialsById cfg st credentialIds (some iid) disc now requestStart tokenResp apiResp).apiCalls = 1 := by
  rw [getScopedCredentialsById_reaches_api cfg st credentialIds iid disc now requestStart
    tokenResp apiResp tok hiid hids hclean htok]
  refine ⟨?_, rfl⟩
  simp only [scopedApiStep, hbody]
  rw [if_neg hstatus]
  simp [hka, hkg]

/-- C8 witness: a response granting only one of two requested ids is returned
in full. -/
theorem C8_partial_grant_full_response_witness :
    (getScopedCredentialsById cfgW initialState ["cred-1", "cred-2"] (some "test-instance-id-789")
        .connectionError 0 1 tokRespW respPartialW).result
      = .ok (.obj [("access_token", .str "sts_tok"), ("expires_in", .num 900),
          ("granted_credential_ids", .arr [.str "cred-1"])]) ∧
    (getScopedCredentialsById cfgW initialState ["cred-1", "cred-2"] (some "test-instance-id-789")
        .connectionError 0 1 tokRespW respPartialW).apiCalls = 1 :=
  C8_partial_grant_full_response cfgW initialState ["cred-1", "cred-2"] "test-instance-id-789"
    .connectionError 0 1 tokRespW respPartialW (.str "jwt1")
    [("access_token", .str "sts_tok"), ("expires_in", .num 900),
      ("granted_credential_ids", .arr [.str "cred-1"])]
    (by decide) (by decide) (by decide) (by rfl) (by decide) (by rfl) (by rfl) (by rfl)

/-- C4: when a bearer-authenticated broker call — variable resolution or
scoped-credentials exchange — receives a 4xx/5xx response that is HTTP 401 or
carries broker code `invalid_token` (with the error body parseable as the
broker's documented object shape), the call raises an error, the token-cache
expiry entry for exactly that call's (audience, instance id) key is forced to
zero, every other cache entry (expiry and token alike) is left as it was
before the call, and a subsequent token request for that key issues a fresh
fetch. -/
theorem C4_unauthorized_invalidates_exactly_that_key :
    (∀ (cfg : PiperConfig) (st : ClientState) (variableName iid : String)
        (disc : DiscoveryOutcome) (now requestStart : Int)
        (tokenResp apiResp : HttpResponse) (info : ErrInfo) (tok : Json),
      iid ≠ "" → variableName ≠ "" → pyStrip variableName ≠ "" →
      (getValidAgentToken st cfg.resolveMappingUrl (some iid) false now requestStart tokenResp).result = .ok tok →
      400 ≤ apiResp.status ∧ apiResp.status < 600 →
      parseErrInfo apiResp.status apiResp = some info →
      (apiResp.status = 401 ∨ info.code.isStrEq "invalid_token" = true) →
      (∃ e, (getCredentialIdForVariable cfg st variableName (some iid) disc now requestStart tokenResp apiResp).result = .error e) ∧
      (getCredentialIdForVariable cfg st variableName (some iid) disc now requestStart tokenResp apiResp).state.tokenExpiries
        (cfg.resolveMappingUrl, some iid) = 0 ∧
      (∀ k, k ≠ (cfg.resolveMappingUrl, some iid) →
        (getCredentialIdForVariable cfg st variableName (some iid) disc now requestStart tokenResp apiResp).state.tokenExpiries k
          = st.tokenExpiries k ∧
        (getCredentialIdForVariable cfg st variableName (some iid) disc now requestStart tokenResp apiResp).state.accessTokens k
          = st.accessTokens k) ∧
      (∀ (now2 requestStart2 : Int) (tokenResp2 : HttpResponse),
        -DEFAULT_TOKEN_EXPIRY_BUFFER_SECONDS ≤ now2 →
        (getValidAgentToken
          (getCredentialIdForVariable cfg st variableName (some iid) disc now requestStart tokenResp apiResp).state
          cfg.resolveMappingUrl (some iid) false now2 requestStart2 tokenResp2).fetchCalls = 1)) ∧
    (∀ (cfg : PiperConfig) (st : ClientState) (credentialIds : List String) (iid : String)
        (disc : DiscoveryOutcome) (now requestStart : Int)
        (tokenResp apiResp : HttpResponse) (info : ErrInfo) (tok : Json),
      iid ≠ "" → credentialIds ≠ [] →
      (credentialIds.map pyStrip).filter (fun s => s != "") ≠ [] →
      (getValidAgentToken st cfg.getScopedUrl (some iid) false now requestStart tokenResp).result = .ok tok →
      400 ≤ apiResp.status ∧ apiResp.status < 600 →
      parseErrInfo apiResp.status apiResp = some info →
      (apiResp.status = 401 ∨ info.code.isStrEq "invalid_token" = true) →
      (∃ e, (getScopedCredentialsById cfg st credentialIds (some iid) disc now requestStart tokenResp apiResp).result = .error e) ∧
      (getScopedCredentialsById cfg st credentialIds (some iid) disc now requestStart tokenResp apiResp).state.tokenExpiries
        (cfg.getScopedUrl, some iid) = 0 ∧
      (∀ k, k ≠ (cfg.getScopedUrl, some iid) →
        (getScopedCredentialsById cfg st credentialIds (some iid) disc now requestStart tokenResp apiResp).state.tokenExpiries k
          = st.tokenExpiries k ∧
        (getScopedCredentialsById cfg st credentialIds (some iid) disc now requestStart tokenResp apiResp).state.accessTokens k
          = st.accessTokens k) ∧
      (∀ (now2 requestStart2 : Int) (tokenResp2 : HttpResponse),
        -DEFAULT_TOKEN_EXPIRY_BUFFER_SECONDS ≤ now2 →
        (getValidAgentToken
          (getScopedCredentialsById cfg st credentialIds (some iid) disc now requestStart tokenResp apiResp).state
          cfg.getScopedUrl (some iid) false now2 requestStart2 tokenResp2).fetchCalls = 1)) := by
  constructor
  · intro cfg st variableName iid disc now requestStart tokenResp apiResp info tok
      hiid hv0 hvt htok hs hinfo hc
    rw [getCredentialIdForVariable_reaches_api cfg st variableName iid disc now requestStart
      tokenResp apiResp tok hiid hv0 hvt htok]
    obtain ⟨⟨e, he⟩, hzero, hframe, hacc⟩ := resolveApiStep_unauthorized
      (getValidAgentToken st cfg.resolveMappingUrl (some iid) false now requestStart tokenResp).state
      cfg.resolveMappingUrl (pyStrip variableName) iid apiResp info hs hinfo hc
    refine ⟨⟨e, he⟩, hzero, ?_, ?_⟩
    · intro k hk
      have h2 := getValidAgentToken_frame st cfg.resolveMappingUrl (some iid) false now
        requestStart tokenResp k hk
      exact ⟨(hframe k hk).trans h2.2, by rw [hacc]; exact h2.1⟩
    · intro now2 requestStart2 tokenResp2 hnow2
      apply getValidAgentToken_stale_fetches
      rw [hzero]
      omega
  · intro cfg st credentialIds iid disc now requestStart tokenResp apiResp info tok
      hiid hids hclean htok hs hinfo hc
    rw [getScopedCredentialsById_reaches_api cfg st credentialIds iid disc now requestStart
      tokenResp apiResp tok hiid hids hclean htok]
    obtain ⟨⟨e, he⟩, hzero, hframe, hacc⟩ := scopedApiStep_unauthorized
      (getValidAgentToken st cfg.getScopedUrl (some iid) false now requestStart tokenResp).state
      cfg.getScopedUrl ((credentialIds.map pyStrip).filter (fun s => s != "")) iid apiResp info hs hinfo hc
    refine ⟨⟨e, he⟩, hzero, ?_, ?_⟩
    · intro k hk
      have h2 := getValidAgentToken_frame st cfg.getScopedUrl (some iid) false now
        requestStart tokenResp k hk
      exact ⟨(hframe k hk).trans h2.2, by rw [hacc]; exact h2.1⟩
    · intro now2 requestStart2 tokenResp2 hnow2
      apply getValidAgentToken_stale_fetches
      rw [hzero]
      omega

/-- C4 witness: a concrete 401 `invalid_token` response on each endpoint
zeroes exactly that call's cache entry, leaves another key alone, and makes
the next token request fetch. -/
theorem C4_unauthorized_invalidates_exactly_that_key_witness :
    ((∃ e, (getCredentialIdForVariable cfgW initialState "MyTestApiKey" (some "test-instance-id-789")
        .connectionError 0 1 tokRespW resp401W).result = .error e) ∧
      (getCredentialIdForVariable cfgW initialState "MyTestApiKey" (some "test-instance-id-789")
        .connectionError 0 1 tokRespW resp401W).state.tokenExpiries
          (cfgW.resolveMappingUrl, some "test-instance-id-789") = 0 ∧
      ((getCredentialIdForVariable cfgW initialState "MyTestApiKey" (some "test-instance-id-789")
        .connectionError 0 1 tokRespW resp401W).state.tokenExpiries ("other", none)
          = initialState.tokenExpiries ("other", none) ∧
       (getCredentialIdForVariable cfgW initialState "MyTestApiKey" (some "test-instance-id-789")
        .connectionError 0 1 tokRespW resp401W).state.accessTokens ("other", none)
          = initialState.accessTokens ("other", none)) ∧
      (getValidAgentToken
        (getCredentialIdForVariable cfgW initialState "MyTestApiKey" (some "test-instance-id-789")
          .connectionError 0 1 tokRespW resp401W).state
        cfgW.resolveMappingUrl (some "test-instance-id-789") false 5 6 tokRespW).fetchCalls = 1) ∧
    ((∃ e, (getScopedCredentialsById cfgW initialState ["cred-1"] (some "test-instance-id-789")
        .connectionError 0 1 tokRespW resp401W).result = .error e) ∧
      (getScopedCredentialsById cfgW initialState ["cred-1"] (some "test-instance-id-789")
        .connectionError 0 1 tokRespW resp401W).state.tokenExpiries
          (cfgW.getScopedUrl, some "test-instance-id-789") = 0 ∧
      (getValidAgentToken
        (getScopedCredentialsById cfgW initialState ["cred-1"] (some "test-instance-id-789")
          .connectionError 0 1 tokRespW resp401W).state
        cfgW.getScopedUrl (some "test-instance-id-789") false 5 6 tokRespW).fetchCalls = 1) := by
  have h1 := C4_unauthorized_invalidates_exactly_that_key.1 cfgW initialState "MyTestApiKey"
    "test-instance-id-789" .connectionError 0 1 tokRespW resp401W
    { code := .str "invalid_token",
      description := pyStr (.obj [("error", .str "invalid_token")]),
      details := .obj [("error", .str "invalid_token")] }
    (.str "jwt1") (by decide) (by decide) (by decide) (by rfl) (by decide) (by rfl) (.inl rfl)
  have h2 := C4_unauthorized_invalidates_exactly_that_key.2 cfgW initialState ["cred-1"]
    "test-instance-id-789" .connectionError 0 1 tokRespW resp401W
    { code := .str "invalid_token",
      description := pyStr (.obj [("error", .str "invalid_token")]),
      details := .obj [("error", .str "invalid_token")] }
    (.str "jwt1") (by decide) (by decide) (by decide) (by rfl) (by decide) (by rfl) (.inl rfl)
  refine ⟨⟨h1.1, h1.2.1, h1.2.2.1 ("other", none) (by decide), h1.2.2.2 5 6 tokRespW (by decide)⟩,
    ⟨h2.1, h2.2.1, h2.2.2.2 5 6 tokRespW (by decide)⟩⟩

end PiperSDK
